import Mathlib

/-
Verification of the S3 export sink (src/sink/s3sink.go) of the quanta
repository: destination parsing, CSV and Parquet sink lifecycle, schema
derivation and credential resolution, shallowly embedded in Lean.
Go strings are modelled as List Char; external effects (AWS calls,
stream writes) are driven by explicit environment records and recorded
in the resulting state or an event trace.
-/

set_option autoImplicit false

/-- ASCII-restricted model of Go strings.ToLower: the paths this parser
receives are ASCII, and Char.toLower lowercases exactly the ASCII
uppercase letters. -/
def goToLower (s : List Char) : List Char := s.map Char.toLower

/-- Model of Go strings.Replace(s, pat, emptyString, 1): remove the first
occurrence of pat, scanning from the left. -/
def removeFirst (pat : List Char) : List Char → List Char
  | [] => []
  | c :: cs =>
    if pat.isPrefixOf (c :: cs) then (c :: cs).drop pat.length
    else c :: removeFirst pat cs

/-- Model of Go strings.SplitN(s, slash, 2): some (before, after) at the
first separator; none when no separator occurs, in which case SplitN
yields a single-element slice and indexing element 1 is a runtime
crash. -/
def splitFirst : List Char → Option (List Char × List Char)
  | [] => none
  | c :: cs =>
    if c = '/' then some ([], cs)
    else
      match splitFirst cs with
      | none => none
      | some (a, b) => some (c :: a, b)

/-- Outcome of a fallible Go call: an error value returned to the
caller, or a runtime crash (index out of range, nil dereference). -/
inductive GoErr where
  | goError (msg : List Char)
  | crash (msg : List Char)
deriving DecidableEq

/-- The scheme literal the source removes from the lowercased path. -/
def schemeLit : List Char := "s3://".data

/-- Shallow embedding of parseBucketName (src/sink/s3sink.go:335-352).
The source lowercases the whole path into noScheme (inlined here),
removes the first occurrence of the scheme, splits at the first
separator, and indexes both halves; a path without separator makes
split_path[1] an out-of-range index. -/
def parseBucketName (bucketPath : List Char) :
    Except GoErr (List Char × List Char) :=
  match splitFirst (removeFirst schemeLit (goToLower bucketPath)) with
  | none => .error (.crash "runtime error: index out of range".data)
  | some (bucket, file) =>
    if bucket = [] then .error (.goError "no bucket specified".data)
    else if file = [] then .error (.goError "no file specified".data)
    else .ok (bucket, file)

theorem removeFirst_append (pat rest : List Char) :
    removeFirst pat (pat ++ rest) = rest := by
  cases h : pat ++ rest with
  | nil =>
    rcases List.append_eq_nil.mp h with ⟨h1, h2⟩
    subst h1; subst h2; rfl
  | cons c cs =>
    have hpre : pat.isPrefixOf (c :: cs) = true := by
      rw [← h]
      exact List.isPrefixOf_iff_prefix.mpr (List.prefix_append pat rest)
    have hdrop : (c :: cs).drop pat.length = rest := by
      rw [← h]; exact List.drop_left pat rest
    simp [removeFirst, hpre, hdrop]

theorem splitFirst_no_slash {b : List Char} (hb : ('/' : Char) ∉ b)
    (k : List Char) : splitFirst (b ++ '/' :: k) = some (b, k) := by
  induction b with
  | nil => simp [splitFirst]
  | cons c cs ih =>
    have hc : c ≠ '/' := fun h => hb (h ▸ List.mem_cons_self c cs)
    have hcs : ('/' : Char) ∉ cs := fun h => hb (List.mem_cons_of_mem c h)
    simp [splitFirst, hc, ih hcs]

/-- Claim C4: the well-formed example parses into bucket and key, and
the empty-bucket and empty-key shapes each fail with the config error
the source raises. -/
theorem c4_parse_examples :
    parseBucketName "s3://mybucket/a/b/c".data =
      .ok ("mybucket".data, "a/b/c".data) ∧
    parseBucketName "s3:///k".data =
      .error (.goError "no bucket specified".data) ∧
    parseBucketName "s3://bucket/".data =
      .error (.goError "no file specified".data) := by
  exact ⟨rfl, rfl, rfl⟩

/-- Claim C3, counterexample: the source lowercases the entire path, so
the key case is not preserved: the part after the first separator of
the input is "Path/File.CSV" but the parser returns "path/file.csv". -/
theorem c3_counterexample :
    parseBucketName "s3://MyBucket/Path/File.CSV".data =
      .ok ("mybucket".data, "path/file.csv".data) ∧
    "path/file.csv".data ≠ "Path/File.CSV".data := by
  exact ⟨rfl, by decide⟩

/-- Claim C3, amended: the parser lowercases the whole path, removes the
scheme (hence matches it case-insensitively), and splits at the first
separator; bucket and key are the lowercased pieces before and after
that separator. -/
theorem c3_parse_lowered (p b k : List Char)
    (hlow : goToLower p = schemeLit ++ b ++ '/' :: k)
    (hb : ('/' : Char) ∉ b) (hbne : b ≠ []) (hkne : k ≠ []) :
    parseBucketName p = .ok (b, k) := by
  unfold parseBucketName
  rw [hlow, List.append_assoc, removeFirst_append,
    splitFirst_no_slash hb k]
  simp [hbne, hkne]

/-- Witness for c3_parse_lowered at a mixed-case input. -/
theorem c3_parse_lowered_witness :
    parseBucketName "S3://MyBucket/Path/File.CSV".data =
      .ok ("mybucket".data, "path/file.csv".data) :=
  c3_parse_lowered "S3://MyBucket/Path/File.CSV".data
    "mybucket".data "path/file.csv".data (by decide) (by decide)
    (by decide) (by decide)

/-- Claim C5: when no separator remains after scheme removal the source
indexes split_path[1] of a one-element slice: the out-of-range crash
branch, not a config error. -/
theorem c5_no_separator_crash (p : List Char)
    (h : splitFirst (removeFirst schemeLit (goToLower p)) = none) :
    parseBucketName p =
      .error (.crash "runtime error: index out of range".data) := by
  unfold parseBucketName
  rw [h]

/-- Witness for c5_no_separator_crash at the path without a key part. -/
theorem c5_no_separator_crash_witness :
    parseBucketName "s3://bucket".data =
      .error (.crash "runtime error: index out of range".data) :=
  c5_no_separator_crash "s3://bucket".data rfl

/-- Whitespace class of Go strings.TrimSpace restricted to the ASCII
range: space, tab, newline, vertical tab, form feed, carriage return. -/
def goIsSpace (c : Char) : Bool :=
  c = ' ' || c = '\t' || c = '\n' || c = '\x0B' || c = '\x0C' || c = '\r'

/-- Trailing-whitespace removal, the right half of strings.TrimSpace. -/
def trimRight : List Char → List Char
  | [] => []
  | c :: cs =>
    match trimRight cs with
    | [] => if goIsSpace c then [] else [c]
    | d :: ds => c :: d :: ds

/-- Model of Go strings.TrimSpace: drop leading and trailing
whitespace. -/
def trimSpace (s : List Char) : List Char :=
  trimRight (s.dropWhile goIsSpace)

/-- Rendering of a qlbridge BoolValue by its ToString method. -/
def boolToString (b : Bool) : List Char :=
  if b then "true".data else "false".data

/-- The shapes of driver.Value the Next value switch distinguishes: a
native Go string, a qlbridge StringValue, a qlbridge BoolValue, and any
other value carrying its fmt Sprintf rendering for the percent-v verb. -/
inductive DriverValue where
  | goString (s : List Char)
  | stringValue (s : List Char)
  | boolValue (b : Bool)
  | otherValue (fmtText : List Char)
deriving DecidableEq

/-- The raw text each branch of the source value switch starts from:
the string itself, StringValue.Val, BoolValue.ToString, or the generic
rendering. -/
def rawTextOf : DriverValue → List Char
  | .goString s => s
  | .stringValue s => s
  | .boolValue b => boolToString b
  | .otherValue t => t

/-- Value conversion of S3CSVSink.Next (src/sink/s3sink.go:148-159). -/
def csvConvertVal : DriverValue → List Char
  | .goString s => trimSpace s
  | .stringValue s => trimSpace s
  | .boolValue b => trimSpace (boolToString b)
  | .otherValue t => trimSpace t

/-- Value conversion of S3ParquetSink.Next (src/sink/s3sink.go:298-309);
the source duplicates the CSV switch verbatim. -/
def parquetConvertVal : DriverValue → List Char
  | .goString s => trimSpace s
  | .stringValue s => trimSpace s
  | .boolValue b => trimSpace (boolToString b)
  | .otherValue t => trimSpace t

/-- Model of Go strings.Join with a one-character separator. -/
def joinWith (d : Char) : List (List Char) → List Char
  | [] => []
  | [x] => x
  | x :: y :: ys => x ++ d :: joinWith d (y :: ys)

/-- State of the CSV sink (src/sink/s3sink.go:33-44): whether the header
went out, the configured delimiter, whether the write stream exists
(writer not nil), and the records emitted so far, in order.  The
underlying csv.Writer hands each record to the stream as one line; its
buffering and field quoting live below the granularity modelled here. -/
structure S3CSVSink where
  headersWritten : Bool
  delimiter : Char
  writerOpen : Bool
  written : List (List Char)
deriving DecidableEq

/-- cNames construction of S3CSVSink.Next (src/sink/s3sink.go:135-138):
a slice of len colIndex empty strings, then cNames[i] = k for every
pair of the map range; an out-of-range index is a Go runtime crash,
modelled as none. -/
def assignNames : List (List Char × Nat) → List (List Char) →
    Option (List (List Char))
  | [], acc => some acc
  | (k, i) :: rest, acc =>
    if i < acc.length then assignNames rest (acc.set i k) else none

/-- The header name slice built from one iteration order of the
name-to-index map. -/
def buildCNames (colIndex : List (List Char × Nat)) :
    Option (List (List Char)) :=
  assignNames colIndex (List.replicate colIndex.length [])

/-- Shallow embedding of S3CSVSink.Next (src/sink/s3sink.go:133-164):
on the first call build the header from colIndex (crashing on an
out-of-range index, erroring on a nil writer) and emit it, then emit
the converted, trimmed record. -/
def S3CSVSink.Next (s : S3CSVSink) (dest : List DriverValue)
    (colIndex : List (List Char × Nat)) : Except GoErr S3CSVSink :=
  match
    (if s.headersWritten then .ok s
     else
       match buildCNames colIndex with
       | none => .error (.crash "runtime error: index out of range".data)
       | some cNames =>
         if s.writerOpen then
           .ok { s with
                 written := s.written ++ [joinWith s.delimiter cNames],
                 headersWritten := true }
         else
           .error (.goError "nil writer, open call must have failed".data) :
      Except GoErr S3CSVSink)
  with
  | .error e => .error e
  | .ok s1 =>
    .ok { s1 with
          written :=
            s1.written ++ [joinWith s1.delimiter (dest.map csvConvertVal)] }

/-- External outcome of closing the underlying upload stream. -/
structure CSVCloseEnv where
  writerCloseErr : Option (List Char) := none
deriving DecidableEq

/-- Shallow embedding of S3CSVSink.Close (src/sink/s3sink.go:167-179):
a nil writer short-circuits to success without touching the stream;
otherwise the buffered writer is flushed and the close error of the
stream is surfaced. -/
def S3CSVSink.Close (s : S3CSVSink) (env : CSVCloseEnv) :
    Except GoErr Unit :=
  if s.writerOpen = false then .ok ()
  else
    match env.writerCloseErr with
    | some e => .error (.goError e)
    | none => .ok ()

/-- Driving a sequence of row batches through Next, stopping at the
first error, with one fixed column-index mapping. -/
def runNext (colIndex : List (List Char × Nat)) :
    S3CSVSink → List (List DriverValue) → Except GoErr S3CSVSink
  | s, [] => .ok s
  | s, d :: ds =>
    match S3CSVSink.Next s d colIndex with
    | .error e => .error e
    | .ok s1 => runNext colIndex s1 ds

/-- The qlbridge projection value types the schema switch inspects
(src/sink/s3sink.go:272-281): the three specifically handled types and
representatives of the default branch. -/
inductive ValueType where
  | intType
  | numberType
  | boolType
  | stringType
  | timeType
  | byteSliceType
  | unknownType
deriving DecidableEq

/-- One projected column of ctx.Projection.Proj.Columns: its output
name (the As field) and its value type. -/
structure ProjColumn where
  As : List Char
  vtype : ValueType
deriving DecidableEq

/-- One parquet metadata entry (src/sink/s3sink.go:272-281): INT64 for
integers, FLOAT for numbers, BOOLEAN for booleans, UTF8 with
PLAIN_DICTIONARY encoding for everything else. -/
def mdEntry (v : ProjColumn) : List Char :=
  match v.vtype with
  | .intType => "name=".data ++ v.As ++ ", type=INT64".data
  | .numberType => "name=".data ++ v.As ++ ", type=FLOAT".data
  | .boolType => "name=".data ++ v.As ++ ", type=BOOLEAN".data
  | _ => "name=".data ++ v.As ++
      ", type=UTF8, encoding=PLAIN_DICTIONARY".data

/-- s.md construction (src/sink/s3sink.go:270-282): the indexed loop
fills slot i from column i, one entry per projected column in
projection order. -/
def deriveMd (cols : List ProjColumn) : List (List Char) :=
  cols.map mdEntry

/-- Spec-side abstract primitive types of the derived column schema. -/
inductive PrimitiveType where
  | integer64
  | float64
  | boolean
  | utf8String
deriving DecidableEq

/-- Spec-side type mapping of the schema deriver: numeric-integer to
Integer64, numeric-floating to Float64, boolean to Boolean, anything
else to Utf8String. -/
def specTypeOf : ValueType → PrimitiveType
  | .intType => .integer64
  | .numberType => .float64
  | .boolType => .boolean
  | _ => .utf8String

/-- The metadata text the source emits for each abstract primitive
type; utf8String carries the dictionary-friendly encoding marker. -/
def primTypeMd : PrimitiveType → List Char
  | .integer64 => ", type=INT64".data
  | .float64 => ", type=FLOAT".data
  | .boolean => ", type=BOOLEAN".data
  | .utf8String => ", type=UTF8, encoding=PLAIN_DICTIONARY".data

/-- The open-time parameter map entries the sinks read; none models an
absent key. -/
structure Params where
  format : Option (List Char) := none
  delimiter : Option (List Char) := none
  assumeRoleArn : Option (List Char) := none
  acl : Option (List Char) := none
  sseKmsKeyId : Option (List Char) := none
  region : Option (List Char) := none
deriving DecidableEq

/-- Which credentials end up configured into the storage client. -/
inductive CredSource where
  | ambient
  | assumedRole (arn : List Char)
deriving DecidableEq

/-- Externally visible steps of S3ParquetSink.Open, in call order. -/
inductive OpenEvent where
  | loadDefaultConfig
  | assumeRoleRetrieve
  | credCacheRetrieve
  | buildS3Client (src : CredSource)
  | openOutputFile
  | newCSVWriter
deriving DecidableEq

/-- Results of the external calls S3ParquetSink.Open performs. -/
structure ParquetOpenEnv where
  loadConfigErr : Option (List Char) := none
  providerRetrieveErr : Option (List Char) := none
  cacheRetrieveErr : Option (List Char) := none
  fileWriterErr : Option (List Char) := none
  csvWriterErr : Option (List Char) := none
deriving DecidableEq

/-- State of the parquet sink (src/sink/s3sink.go:49-57): nil-ness of
the columnar writer and the output file handle, the derived metadata,
the configuration fields, and the rows handed to the writer. -/
structure S3ParquetSink where
  csvWriterSet : Bool := false
  outFileSet : Bool := false
  md : List (List Char) := []
  assumeRoleArn : List Char := []
  acl : List Char := []
  sseKmsKeyId : List Char := []
  rows : List (List (List Char)) := []
deriving DecidableEq

/-- Tail of S3ParquetSink.Open after the s3 client is built
(src/sink/s3sink.go:257-292): open the output object, derive the
schema metadata, create the columnar writer. -/
def openRest (s : S3ParquetSink) (cols : List ProjColumn)
    (env : ParquetOpenEnv) (ev : List OpenEvent) :
    S3ParquetSink × Option GoErr × List OpenEvent :=
  match env.fileWriterErr with
  | some e => (s, some (.goError e), ev ++ [OpenEvent.openOutputFile])
  | none =>
    match env.csvWriterErr with
    | some e =>
      ({ s with outFileSet := true, md := deriveMd cols },
        some (.goError e),
        ev ++ [OpenEvent.openOutputFile, OpenEvent.newCSVWriter])
    | none =>
      ({ s with
          outFileSet := true
          md := deriveMd cols
          csvWriterSet := true },
        none,
        ev ++ [OpenEvent.openOutputFile, OpenEvent.newCSVWriter])

/-- Shallow embedding of S3ParquetSink.Open (src/sink/s3sink.go:182-293).
Parses the destination, copies the parameters into the receiver, loads
the default config (a failure there is only logged by the source, so
it produces no early return), resolves credentials (the assume-role
provider Retrieve and the credential-cache Retrieve each abort Open on
failure), builds the s3 client, and hands off to openRest.  The event
trace records the external calls in order. -/
def S3ParquetSink.Open (s : S3ParquetSink) (bucketpath : List Char)
    (params : Params) (cols : List ProjColumn) (env : ParquetOpenEnv) :
    S3ParquetSink × Option GoErr × List OpenEvent :=
  match parseBucketName bucketpath with
  | .error e => (s, some e, [])
  | .ok _ =>
    let s1 :=
      match params.assumeRoleArn with
      | some a => { s with assumeRoleArn := a }
      | none => s
    let s2 :=
      match params.acl with
      | some a => { s1 with acl := a }
      | none => s1
    let s3 :=
      match params.sseKmsKeyId with
      | some a => { s2 with sseKmsKeyId := a }
      | none => s2
    if s3.assumeRoleArn = [] then
      openRest s3 cols env
        [OpenEvent.loadDefaultConfig, OpenEvent.buildS3Client .ambient]
    else
      match env.providerRetrieveErr with
      | some e =>
        (s3,
          some (.goError ("Failed to retrieve credentials: ".data ++ e)),
          [OpenEvent.loadDefaultConfig, OpenEvent.assumeRoleRetrieve])
      | none =>
        match env.cacheRetrieveErr with
        | some e =>
          (s3,
            some (.goError
              ("Failed to retrieve credentials from cache: ".data ++ e)),
            [OpenEvent.loadDefaultConfig, OpenEvent.assumeRoleRetrieve,
              OpenEvent.credCacheRetrieve])
        | none =>
          openRest s3 cols env
            [OpenEvent.loadDefaultConfig, OpenEvent.assumeRoleRetrieve,
              OpenEvent.credCacheRetrieve,
              OpenEvent.buildS3Client (.assumedRole s3.assumeRoleArn)]

/-- External outcome of the columnar WriteString call. -/
structure ParquetWriteEnv where
  writeErr : Option (List Char) := none
deriving DecidableEq

/-- Shallow embedding of S3ParquetSink.Next (src/sink/s3sink.go:296-320):
converts each value exactly as the CSV path does and hands the row, as
a slice of strings, to the columnar writer.  Calling through a nil
writer (Open never succeeded) is a Go nil dereference. -/
def S3ParquetSink.Next (s : S3ParquetSink) (dest : List DriverValue)
    (env : ParquetWriteEnv) : Except GoErr S3ParquetSink :=
  if s.csvWriterSet = false then
    .error (.crash "runtime error: invalid memory address or nil pointer dereference".data)
  else
    match env.writeErr with
    | some e => .error (.goError e)
    | none => .ok { s with rows := s.rows ++ [dest.map parquetConvertVal] }

/-- Results of the external calls S3ParquetSink.Close performs. -/
structure ParquetCloseEnv where
  writeStopErr : Option (List Char) := none
  outFileCloseErr : Option (List Char) := none
deriving DecidableEq

/-- Outcome of closing the parquet sink: a runtime crash, an error
returned to the caller, or success together with the error texts that
were only logged. -/
inductive CloseOutcome where
  | crashed
  | failed (msg : List Char)
  | closedOk (loggedErrs : List (List Char))
deriving DecidableEq

/-- Shallow embedding of S3ParquetSink.Close (src/sink/s3sink.go:323-333):
WriteStop is called unconditionally (a nil writer is a Go nil
dereference); a WriteStop failure is returned to the caller; a failure
of the subsequent outFile.Close is only logged and Close still
reports success. -/
def S3ParquetSink.Close (s : S3ParquetSink) (env : ParquetCloseEnv) :
    CloseOutcome :=
  if s.csvWriterSet = false then .crashed
  else
    match env.writeStopErr with
    | some e => .failed ("Parquet Sink: WriteStop error ".data ++ e)
    | none =>
      if s.outFileSet = false then .crashed
      else
        match env.outFileCloseErr with
        | some e =>
          .closedOk ["Parquet Sink: Outfile close error: ".data ++ e]
        | none => .closedOk []

theorem dropWhile_idem (p : Char → Bool) (l : List Char) :
    (l.dropWhile p).dropWhile p = l.dropWhile p := by
  induction l with
  | nil => rfl
  | cons c cs ih =>
    by_cases hc : p c
    · simp [List.dropWhile_cons, hc, ih]
    · simp [List.dropWhile_cons, hc]

theorem trimRight_cons_eq (c : Char) (cs : List Char) :
    trimRight (c :: cs) =
      match trimRight cs with
      | [] => if goIsSpace c then [] else [c]
      | d :: ds => c :: d :: ds := rfl

theorem trimRight_idem (l : List Char) :
    trimRight (trimRight l) = trimRight l := by
  induction l with
  | nil => rfl
  | cons c cs ih =>
    cases h : trimRight cs with
    | nil =>
      by_cases hc : goIsSpace c
      · simp [trimRight, h, hc]
      · simp [trimRight, h, hc]
    | cons d ds =>
      rw [h] at ih
      have h1 : trimRight (c :: cs) = c :: d :: ds := by
        rw [trimRight_cons_eq, h]
      rw [h1, trimRight_cons_eq, ih]

theorem length_dropWhile_le_aux (p : Char → Bool) (l : List Char) :
    (l.dropWhile p).length ≤ l.length := by
  induction l with
  | nil => exact Nat.le_refl 0
  | cons c cs ih =>
    rw [List.dropWhile_cons]
    by_cases hc : p c = true
    · rw [if_pos hc]; exact Nat.le_succ_of_le ih
    · rw [if_neg hc]

theorem dropWhile_trimRight (l : List Char)
    (hl : l.dropWhile goIsSpace = l) :
    (trimRight l).dropWhile goIsSpace = trimRight l := by
  cases l with
  | nil => rfl
  | cons c cs =>
    have hc : goIsSpace c = false := by
      cases hb : goIsSpace c with
      | false => rfl
      | true =>
        exfalso
        rw [List.dropWhile_cons, if_pos (by simp [hb])] at hl
        have h2 : (cs.dropWhile goIsSpace).length ≤ cs.length :=
          length_dropWhile_le_aux goIsSpace cs
        rw [hl] at h2
        simp at h2
    cases h : trimRight cs with
    | nil => simp [trimRight, h, hc]
    | cons d ds => simp [trimRight, h, List.dropWhile_cons, hc]

theorem trimSpace_idem (s : List Char) :
    trimSpace (trimSpace s) = trimSpace s := by
  unfold trimSpace
  rw [dropWhile_trimRight _ (dropWhile_idem goIsSpace s), trimRight_idem]

/-- Claim C8: in both Next paths every value kind is converted to the
trimmed form of its raw text (so no written field keeps surrounding
whitespace), and each path writes exactly the converted record. -/
theorem c8_values_trimmed (v : DriverValue) (sc : S3CSVSink)
    (sp : S3ParquetSink) (dest : List DriverValue)
    (ci : List (List Char × Nat)) (env : ParquetWriteEnv)
    (hh : sc.headersWritten = true) (hw : sp.csvWriterSet = true)
    (he : env.writeErr = none) :
    csvConvertVal v = trimSpace (rawTextOf v) ∧
    parquetConvertVal v = trimSpace (rawTextOf v) ∧
    trimSpace (csvConvertVal v) = csvConvertVal v ∧
    S3CSVSink.Next sc dest ci =
      .ok { sc with
            written := sc.written ++
              [joinWith sc.delimiter (dest.map csvConvertVal)] } ∧
    S3ParquetSink.Next sp dest env =
      .ok { sp with rows := sp.rows ++ [dest.map parquetConvertVal] } := by
  refine ⟨?_, ?_, ?_, ?_, ?_⟩
  · cases v <;> rfl
  · cases v <;> rfl
  · cases v <;> exact trimSpace_idem _
  · simp [S3CSVSink.Next, hh]
  · simp [S3ParquetSink.Next, hw, he]

/-- Witness for c8_values_trimmed on one concrete value and sink pair. -/
theorem c8_values_trimmed_witness :
    csvConvertVal (.goString "  Alice ".data) =
      trimSpace (rawTextOf (.goString "  Alice ".data)) ∧
    parquetConvertVal (.goString "  Alice ".data) =
      trimSpace (rawTextOf (.goString "  Alice ".data)) ∧
    trimSpace (csvConvertVal (.goString "  Alice ".data)) =
      csvConvertVal (.goString "  Alice ".data) ∧
    S3CSVSink.Next ⟨true, ',', true, []⟩ [.goString "  Alice ".data] [] =
      .ok { (⟨true, ',', true, []⟩ : S3CSVSink) with
            written := [] ++
              [joinWith ','
                (([.goString "  Alice ".data] : List DriverValue).map
                  csvConvertVal)] } ∧
    S3ParquetSink.Next { csvWriterSet := true } [.goString "  Alice ".data]
        {} =
      .ok { ({ csvWriterSet := true } : S3ParquetSink) with
            rows := [] ++
              [([.goString "  Alice ".data] : List DriverValue).map
                parquetConvertVal] } :=
  c8_values_trimmed (.goString "  Alice ".data) ⟨true, ',', true, []⟩
    { csvWriterSet := true } [.goString "  Alice ".data] [] {} rfl rfl rfl

/-- Claim C9: on the open parquet sink, a WriteStop failure is returned
from Close, while when WriteStop succeeds Close reports success and a
failure of the file-handle close is only logged. -/
theorem c9_parquet_close_asymmetry (s : S3ParquetSink)
    (env : ParquetCloseEnv) (hw : s.csvWriterSet = true)
    (hf : s.outFileSet = true) :
    (∀ e, env.writeStopErr = some e →
      S3ParquetSink.Close s env =
        .failed ("Parquet Sink: WriteStop error ".data ++ e)) ∧
    (env.writeStopErr = none →
      S3ParquetSink.Close s env =
        .closedOk
          (match env.outFileCloseErr with
           | some e => ["Parquet Sink: Outfile close error: ".data ++ e]
           | none => [])) := by
  constructor
  · intro e he
    simp [S3ParquetSink.Close, hw, he]
  · intro he
    cases ho : env.outFileCloseErr <;>
      simp [S3ParquetSink.Close, hw, hf, he, ho]

/-- Witness for c9_parquet_close_asymmetry on both outcomes. -/
theorem c9_parquet_close_asymmetry_witness :
    S3ParquetSink.Close { csvWriterSet := true, outFileSet := true }
        { writeStopErr := some "disk full".data } =
      .failed ("Parquet Sink: WriteStop error ".data ++ "disk full".data) ∧
    S3ParquetSink.Close { csvWriterSet := true, outFileSet := true }
        { outFileCloseErr := some "hangup".data } =
      .closedOk ["Parquet Sink: Outfile close error: ".data ++
        "hangup".data] :=
  ⟨(c9_parquet_close_asymmetry { csvWriterSet := true, outFileSet := true }
      { writeStopErr := some "disk full".data } rfl rfl).1
      "disk full".data rfl,
    (c9_parquet_close_asymmetry { csvWriterSet := true, outFileSet := true }
      { outFileCloseErr := some "hangup".data } rfl rfl).2 rfl⟩

/-- Claim C2: the derived parquet schema has one entry per projected
column in projection order, and entry i is the metadata line for
column i under the spec type mapping (integer to Integer64, floating
to Float64, boolean to Boolean, else Utf8String with the
dictionary-friendly encoding). -/
theorem c2_parquet_schema (cols : List ProjColumn) (i : Nat)
    (h : i < cols.length) :
    (deriveMd cols).length = cols.length ∧
    (deriveMd cols)[i]? =
      some ("name=".data ++ cols[i].As ++
        primTypeMd (specTypeOf cols[i].vtype)) := by
  constructor
  · simp [deriveMd]
  · have hmd : ∀ c : ProjColumn,
        mdEntry c = "name=".data ++ c.As ++
          primTypeMd (specTypeOf c.vtype) := by
      intro c
      cases hc : c.vtype <;> simp [mdEntry, specTypeOf, primTypeMd, hc]
    rw [deriveMd, List.getElem?_map, List.getElem?_eq_getElem h]
    simp [hmd]

/-- Witness for c2_parquet_schema on a projection covering all four
type classes. -/
theorem c2_parquet_schema_witness :
    (deriveMd [⟨"id".data, .intType⟩, ⟨"score".data, .numberType⟩,
        ⟨"ok".data, .boolType⟩, ⟨"city".data, .stringType⟩]).length =
      ([⟨"id".data, .intType⟩, ⟨"score".data, .numberType⟩,
        ⟨"ok".data, .boolType⟩,
        ⟨"city".data, .stringType⟩] : List ProjColumn).length ∧
    (deriveMd [⟨"id".data, .intType⟩, ⟨"score".data, .numberType⟩,
        ⟨"ok".data, .boolType⟩, ⟨"city".data, .stringType⟩])[3]? =
      some ("name=".data ++ "city".data ++
        primTypeMd (specTypeOf .stringType)) :=
  c2_parquet_schema
    [⟨"id".data, .intType⟩, ⟨"score".data, .numberType⟩,
      ⟨"ok".data, .boolType⟩, ⟨"city".data, .stringType⟩] 3
    (by decide)

/-- Claim C1 (the parquet half fails): after an Open that returned an
error before any writer existed, the CSV Close is a harmless no-op
even when the environment would fail a close, but the parquet Close
dereferences the nil columnar writer: a crash, not a no-op. -/
theorem c1_close_after_failed_open :
    S3CSVSink.Close ⟨false, '\t', false, []⟩
        { writerCloseErr := some "upload failed".data } = .ok () ∧
    (S3ParquetSink.Open {} "s3://bucket/".data {} [] {}).2.1 =
      some (.goError "no file specified".data) ∧
    (S3ParquetSink.Open {} "s3://bucket/".data {} [] {}).1.csvWriterSet =
      false ∧
    S3ParquetSink.Close (S3ParquetSink.Open {} "s3://bucket/".data {} []
      {}).1 {} = .crashed := by
  exact ⟨rfl, rfl, rfl, rfl⟩

theorem runNext_headers_written (ci : List (List Char × Nat))
    (ds : List (List DriverValue)) :
    ∀ s : S3CSVSink, s.headersWritten = true →
      runNext ci s ds =
        .ok { s with
              written := s.written ++
                ds.map (fun d => joinWith s.delimiter
                  (d.map csvConvertVal)) } := by
  induction ds with
  | nil =>
    intro s hh
    simp [runNext]
  | cons d ds ih =>
    intro s hh
    have hnext : S3CSVSink.Next s d ci =
        .ok { s with
              written := s.written ++
                [joinWith s.delimiter (d.map csvConvertVal)] } := by
      simp [S3CSVSink.Next, hh]
    have hstep : runNext ci s (d :: ds) =
        runNext ci
          { s with
            written := s.written ++
              [joinWith s.delimiter (d.map csvConvertVal)] } ds := by
      rw [runNext, hnext]
    rw [hstep,
      ih { s with
            written := s.written ++
              [joinWith s.delimiter (d.map csvConvertVal)] } hh]
    simp [List.append_assoc]

/-- Claim C6: starting from the freshly opened CSV sink, any nonempty
sequence of Next calls emits exactly one header record first and then
one data record per call, in call order; the header is written by the
first call only and no later call changes it. -/
theorem c6_csv_header_then_rows (s : S3CSVSink)
    (ci : List (List Char × Nat)) (cNames : List (List Char))
    (b : List DriverValue) (bs : List (List DriverValue))
    (hh : s.headersWritten = false) (hw : s.writerOpen = true)
    (hfresh : s.written = []) (hc : buildCNames ci = some cNames) :
    runNext ci s (b :: bs) =
      .ok { headersWritten := true, delimiter := s.delimiter,
            writerOpen := true,
            written := joinWith s.delimiter cNames ::
              (b :: bs).map
                (fun d => joinWith s.delimiter (d.map csvConvertVal)) } := by
  have hnext : S3CSVSink.Next s b ci =
      .ok { s with
            written := [joinWith s.delimiter cNames,
              joinWith s.delimiter (b.map csvConvertVal)],
            headersWritten := true } := by
    simp [S3CSVSink.Next, hh, hc, hw, hfresh]
  have hstep : runNext ci s (b :: bs) =
      runNext ci
        { s with
          written := [joinWith s.delimiter cNames,
            joinWith s.delimiter (b.map csvConvertVal)],
          headersWritten := true } bs := by
    rw [runNext, hnext]
  rw [hstep,
    runNext_headers_written ci bs
      { s with
        written := [joinWith s.delimiter cNames,
          joinWith s.delimiter (b.map csvConvertVal)],
        headersWritten := true } rfl]
  simp [hw]

/-- Witness for c6_csv_header_then_rows: the end-to-end CSV scenario of
the spec, two rows with a comma delimiter. -/
theorem c6_csv_header_then_rows_witness :
    runNext [("name".data, 0), ("age".data, 1)]
        ⟨false, ',', true, []⟩
        [[.goString "Alice".data, .goString "30".data],
          [.goString "Bob".data, .goString "25".data]] =
      .ok { headersWritten := true, delimiter := ',', writerOpen := true,
            written := joinWith ',' ["name".data, "age".data] ::
              ([[.goString "Alice".data, .goString "30".data],
                  [.goString "Bob".data, .goString "25".data]] :
                List (List DriverValue)).map
                (fun d => joinWith ',' (d.map csvConvertVal)) } :=
  c6_csv_header_then_rows ⟨false, ',', true, []⟩
    [("name".data, 0), ("age".data, 1)] ["name".data, "age".data]
    [.goString "Alice".data, .goString "30".data]
    [[.goString "Bob".data, .goString "25".data]] rfl rfl rfl rfl

theorem assignNames_length (ps : List (List Char × Nat)) :
    ∀ acc r, assignNames ps acc = some r → r.length = acc.length := by
  induction ps with
  | nil =>
    intro acc r h
    injection h with h
    rw [← h]
  | cons p rest ih =>
    intro acc r h
    rcases p with ⟨k, i⟩
    rw [assignNames] at h
    by_cases hi : i < acc.length
    · rw [if_pos hi] at h
      have h2 := ih _ _ h
      rwa [List.length_set] at h2
    · rw [if_neg hi] at h
      cases h

theorem assignNames_isSome (ps : List (List Char × Nat)) :
    ∀ acc, (∀ p ∈ ps, p.2 < acc.length) →
      ∃ r, assignNames ps acc = some r := by
  induction ps with
  | nil =>
    intro acc _
    exact ⟨acc, rfl⟩
  | cons p rest ih =>
    intro acc hb
    rcases p with ⟨k, i⟩
    have hi : i < acc.length := hb (k, i) (List.mem_cons_self _ _)
    rw [assignNames, if_pos hi]
    apply ih
    intro q hq
    rw [List.length_set]
    exact hb q (List.mem_cons_of_mem _ hq)

theorem assignNames_untouched (ps : List (List Char × Nat)) :
    ∀ acc r i, i ∉ ps.map Prod.snd → assignNames ps acc = some r →
      r[i]? = acc[i]? := by
  induction ps with
  | nil =>
    intro acc r i _ h
    injection h with h
    rw [h]
  | cons p rest ih =>
    intro acc r i hmem h
    rcases p with ⟨k, j⟩
    have hij : j ≠ i := by
      intro he
      exact hmem (by simp [he])
    have hrest : i ∉ rest.map Prod.snd := by
      intro hm
      exact hmem (by simp [hm])
    rw [assignNames] at h
    by_cases hj : j < acc.length
    · rw [if_pos hj] at h
      rw [ih _ _ _ hrest h]
      exact List.getElem?_set_ne hij
    · rw [if_neg hj] at h
      cases h

theorem assignNames_lookup (ps : List (List Char × Nat)) :
    ∀ acc r, (ps.map Prod.snd).Nodup → assignNames ps acc = some r →
      ∀ k i, (k, i) ∈ ps → i < acc.length → r[i]? = some k := by
  induction ps with
  | nil =>
    intro acc r _ _ k i hmem
    cases hmem
  | cons p rest ih =>
    intro acc r hnd h k i hmem hilt
    rcases p with ⟨k0, i0⟩
    have hnds : i0 ∉ rest.map Prod.snd ∧ (rest.map Prod.snd).Nodup := by
      simpa using hnd
    rw [assignNames] at h
    have hi0 : i0 < acc.length := by
      by_cases hj : i0 < acc.length
      · exact hj
      · rw [if_neg hj] at h
        cases h
    rw [if_pos hi0] at h
    rcases List.mem_cons.mp hmem with he | hm
    · have hk : k = k0 := congrArg Prod.fst he
      have hi : i = i0 := congrArg Prod.snd he
      subst hk
      subst hi
      rw [assignNames_untouched rest _ _ _ hnds.1 h]
      exact List.getElem?_set_self hi0
    · exact ih _ _ hnds.2 h k i hm (by rw [List.length_set]; exact hilt)

theorem mem_of_nodup_full (l : List Nat) (n : Nat) (hnd : l.Nodup)
    (hlt : ∀ x ∈ l, x < n) (hlen : l.length = n) :
    ∀ i, i < n → i ∈ l := by
  intro i hi
  have hsub : l.toFinset ⊆ Finset.range n := by
    intro x hx
    rw [List.mem_toFinset] at hx
    exact Finset.mem_range.mpr (hlt x hx)
  have hcard : (Finset.range n).card ≤ l.toFinset.card := by
    rw [Finset.card_range, List.toFinset_card_of_nodup hnd, hlen]
  have heq := Finset.eq_of_subset_of_card_le hsub hcard
  rw [← List.mem_toFinset, heq]
  exact Finset.mem_range.mpr hi

/-- Claim C7: when the supplied name-to-index mapping is a bijection
onto the positions, the header name list exists, places the name
mapped to index i at position i, is the same for every iteration
order of the mapping, and the first Next call on a fresh open sink
emits exactly that list joined with the delimiter. -/
theorem c7_header_positional_order (ci ci2 : List (List Char × Nat))
    (hnd : (ci.map Prod.snd).Nodup)
    (hlt : ∀ p ∈ ci, p.2 < ci.length)
    (hperm : ci2.Perm ci) :
    ∃ cNames, buildCNames ci = some cNames ∧
      buildCNames ci2 = some cNames ∧
      cNames.length = ci.length ∧
      (∀ k i, (k, i) ∈ ci → cNames[i]? = some k) ∧
      (∀ (d : Char) (dest : List DriverValue),
        S3CSVSink.Next ⟨false, d, true, []⟩ dest ci =
          .ok ⟨true, d, true,
            [joinWith d cNames,
              joinWith d (dest.map csvConvertVal)]⟩) := by
  have hlen2 : ci2.length = ci.length := hperm.length_eq
  have hmem2 : ∀ p, p ∈ ci2 → p ∈ ci := fun p hp => hperm.mem_iff.mp hp
  have hnd2 : (ci2.map Prod.snd).Nodup :=
    ((hperm.map Prod.snd).nodup_iff).mpr hnd
  obtain ⟨r, hr⟩ := assignNames_isSome ci (List.replicate ci.length [])
    (by intro p hp; rw [List.length_replicate]; exact hlt p hp)
  obtain ⟨r2, hr2⟩ := assignNames_isSome ci2 (List.replicate ci2.length [])
    (by
      intro p hp
      rw [List.length_replicate, hlen2]
      exact hlt p (hmem2 p hp))
  have hrlen : r.length = ci.length := by
    have h1 := assignNames_length ci _ _ hr
    rwa [List.length_replicate] at h1
  have hr2len : r2.length = ci.length := by
    have h1 := assignNames_length ci2 _ _ hr2
    rwa [List.length_replicate, hlen2] at h1
  have hlook : ∀ k i, (k, i) ∈ ci → r[i]? = some k := by
    intro k i hm
    exact assignNames_lookup ci _ _ hnd hr k i hm
      (by rw [List.length_replicate]; exact hlt (k, i) hm)
  have hlook2 : ∀ k i, (k, i) ∈ ci2 → r2[i]? = some k := by
    intro k i hm
    exact assignNames_lookup ci2 _ _ hnd2 hr2 k i hm
      (by rw [List.length_replicate, hlen2]; exact hlt (k, i) (hmem2 _ hm))
  have hcover : ∀ i, i < ci.length → i ∈ ci.map Prod.snd := by
    apply mem_of_nodup_full (ci.map Prod.snd) ci.length hnd
    · intro x hx
      rcases List.mem_map.mp hx with ⟨p, hp, hpx⟩
      rw [← hpx]
      exact hlt p hp
    · exact List.length_map ci Prod.snd
  have heq : r2 = r := by
    apply List.ext_getElem?
    intro i
    by_cases hi : i < ci.length
    · rcases List.mem_map.mp (hcover i hi) with ⟨p, hp, hpi⟩
      have hpm : (p.1, i) ∈ ci := by
        rw [← hpi]
        exact hp
      rw [hlook p.1 i hpm, hlook2 p.1 i (hperm.mem_iff.mpr hpm)]
    · rw [List.getElem?_eq_none (by rw [hr2len]; omega),
        List.getElem?_eq_none (by rw [hrlen]; omega)]
  refine ⟨r, ?_, ?_, hrlen, hlook, ?_⟩
  · rw [buildCNames]
    exact hr
  · rw [buildCNames, hr2, heq]
  · intro d dest
    simp [S3CSVSink.Next, buildCNames, hr]

/-- Witness for c7_header_positional_order: two iteration orders of the
mapping name to 0, age to 1. -/
theorem c7_header_positional_order_witness :
    ∃ cNames,
      buildCNames [("age".data, 1), ("name".data, 0)] = some cNames ∧
      buildCNames [("name".data, 0), ("age".data, 1)] = some cNames ∧
      cNames.length =
        ([("age".data, 1), ("name".data, 0)] :
          List (List Char × Nat)).length ∧
      (∀ k i, (k, i) ∈
          ([("age".data, 1), ("name".data, 0)] :
            List (List Char × Nat)) → cNames[i]? = some k) ∧
      (∀ (d : Char) (dest : List DriverValue),
        S3CSVSink.Next ⟨false, d, true, []⟩ dest
            [("age".data, 1), ("name".data, 0)] =
          .ok ⟨true, d, true,
            [joinWith d cNames,
              joinWith d (dest.map csvConvertVal)]⟩) :=
  c7_header_positional_order [("age".data, 1), ("name".data, 0)]
    [("name".data, 0), ("age".data, 1)] (by decide) (by decide)
    (List.Perm.swap _ _ _)

/-- The events S3ParquetSink.Open appends after the s3 client is built:
always the output-file open; the columnar-writer construction only when
the file open succeeded. -/
def openTail (env : ParquetOpenEnv) : List OpenEvent :=
  match env.fileWriterErr with
  | some _ => [OpenEvent.openOutputFile]
  | none => [OpenEvent.openOutputFile, OpenEvent.newCSVWriter]

theorem openRest_trace (s : S3ParquetSink) (cols : List ProjColumn)
    (env : ParquetOpenEnv) (ev : List OpenEvent) :
    (openRest s cols env ev).2.2 = ev ++ openTail env := by
  rcases hf : env.fileWriterErr with _ | fe
  · rcases hc : env.csvWriterErr with _ | ce <;>
      simp [openRest, openTail, hf, hc]
  · simp [openRest, openTail, hf]

/-- Claim C10: with a nonempty assumeRoleArn parameter, Open performs
the role-assumption retrieve and the cache retrieve before the output
object is opened, and a failure of either aborts Open with an error
before the output file is touched; without the parameter the s3 client
is built from the ambient configuration and no role-assumption call
happens. -/
theorem c10_parquet_credentials (s : S3ParquetSink) (path : List Char)
    (params : Params) (cols : List ProjColumn) (env : ParquetOpenEnv)
    (bk : List Char × List Char)
    (hp : parseBucketName path = .ok bk)
    (hs : s.assumeRoleArn = []) :
    (∀ arn, params.assumeRoleArn = some arn → arn ≠ [] →
      (∀ e, env.providerRetrieveErr = some e →
        (S3ParquetSink.Open s path params cols env).2.1 =
          some (.goError ("Failed to retrieve credentials: ".data ++ e)) ∧
        (S3ParquetSink.Open s path params cols env).2.2 =
          [.loadDefaultConfig, .assumeRoleRetrieve] ∧
        OpenEvent.openOutputFile ∉
          (S3ParquetSink.Open s path params cols env).2.2) ∧
      (∀ e, env.providerRetrieveErr = none →
        env.cacheRetrieveErr = some e →
        (S3ParquetSink.Open s path params cols env).2.1 =
          some (.goError
            ("Failed to retrieve credentials from cache: ".data ++ e)) ∧
        (S3ParquetSink.Open s path params cols env).2.2 =
          [.loadDefaultConfig, .assumeRoleRetrieve,
            .credCacheRetrieve] ∧
        OpenEvent.openOutputFile ∉
          (S3ParquetSink.Open s path params cols env).2.2) ∧
      (env.providerRetrieveErr = none → env.cacheRetrieveErr = none →
        (S3ParquetSink.Open s path params cols env).2.2 =
          [.loadDefaultConfig, .assumeRoleRetrieve, .credCacheRetrieve,
            .buildS3Client (.assumedRole arn), .openOutputFile] ++
            (match env.fileWriterErr with
             | some _ => []
             | none => [OpenEvent.newCSVWriter]))) ∧
    (params.assumeRoleArn = none →
      (S3ParquetSink.Open s path params cols env).2.2 =
        [.loadDefaultConfig, .buildS3Client .ambient,
          .openOutputFile] ++
          (match env.fileWriterErr with
           | some _ => []
           | none => [OpenEvent.newCSVWriter]) ∧
      OpenEvent.assumeRoleRetrieve ∉
        (S3ParquetSink.Open s path params cols env).2.2) := by
  constructor
  · intro arn harn hne
    refine ⟨?_, ?_, ?_⟩
    · intro e he
      rcases hac : params.acl with _ | a <;>
        rcases hkm : params.sseKmsKeyId with _ | kb <;>
          simp [S3ParquetSink.Open, hp, harn, hac, hkm, hne, he]
    · intro e he1 he2
      rcases hac : params.acl with _ | a <;>
        rcases hkm : params.sseKmsKeyId with _ | kb <;>
          simp [S3ParquetSink.Open, hp, harn, hac, hkm, hne, he1, he2]
    · intro he1 he2
      rcases hf : env.fileWriterErr with _ | fe <;>
        rcases hc2 : env.csvWriterErr with _ | ce <;>
          rcases hac : params.acl with _ | a <;>
            rcases hkm : params.sseKmsKeyId with _ | kb <;>
              simp [S3ParquetSink.Open, openRest, hp, harn, hac, hkm,
                hne, he1, he2, hf, hc2]
  · intro harn
    rcases hf : env.fileWriterErr with _ | fe <;>
      rcases hc2 : env.csvWriterErr with _ | ce <;>
        rcases hac : params.acl with _ | a <;>
          rcases hkm : params.sseKmsKeyId with _ | kb <;>
            simp [S3ParquetSink.Open, openRest, hp, harn, hac, hkm, hs,
              hf, hc2]

/-- Witness for c10_parquet_credentials: role parameter set and the
role-assumption retrieve failing. -/
theorem c10_parquet_credentials_witness :
    (∀ arn, ({ assumeRoleArn := some "role".data } :
        Params).assumeRoleArn = some arn → arn ≠ [] →
      (∀ e, ({ providerRetrieveErr := some "denied".data } :
          ParquetOpenEnv).providerRetrieveErr = some e →
        (S3ParquetSink.Open {} "s3://b/k".data
            { assumeRoleArn := some "role".data } []
            { providerRetrieveErr := some "denied".data }).2.1 =
          some (.goError ("Failed to retrieve credentials: ".data ++ e)) ∧
        (S3ParquetSink.Open {} "s3://b/k".data
            { assumeRoleArn := some "role".data } []
            { providerRetrieveErr := some "denied".data }).2.2 =
          [.loadDefaultConfig, .assumeRoleRetrieve] ∧
        OpenEvent.openOutputFile ∉
          (S3ParquetSink.Open {} "s3://b/k".data
            { assumeRoleArn := some "role".data } []
            { providerRetrieveErr := some "denied".data }).2.2) ∧
      (∀ e, ({ providerRetrieveErr := some "denied".data } :
          ParquetOpenEnv).providerRetrieveErr = none →
        ({ providerRetrieveErr := some "denied".data } :
          ParquetOpenEnv).cacheRetrieveErr = some e →
        (S3ParquetSink.Open {} "s3://b/k".data
            { assumeRoleArn := some "role".data } []
            { providerRetrieveErr := some "denied".data }).2.1 =
          some (.goError
            ("Failed to retrieve credentials from cache: ".data ++ e)) ∧
        (S3ParquetSink.Open {} "s3://b/k".data
            { assumeRoleArn := some "role".data } []
            { providerRetrieveErr := some "denied".data }).2.2 =
          [.loadDefaultConfig, .assumeRoleRetrieve,
            .credCacheRetrieve] ∧
        OpenEvent.openOutputFile ∉
          (S3ParquetSink.Open {} "s3://b/k".data
            { assumeRoleArn := some "role".data } []
            { providerRetrieveErr := some "denied".data }).2.2) ∧
      (({ providerRetrieveErr := some "denied".data } :
          ParquetOpenEnv).providerRetrieveErr = none →
        ({ providerRetrieveErr := some "denied".data } :
          ParquetOpenEnv).cacheRetrieveErr = none →
        (S3ParquetSink.Open {} "s3://b/k".data
            { assumeRoleArn := some "role".data } []
            { providerRetrieveErr := some "denied".data }).2.2 =
          [.loadDefaultConfig, .assumeRoleRetrieve, .credCacheRetrieve,
            .buildS3Client (.assumedRole arn), .openOutputFile] ++
            (match ({ providerRetrieveErr := some "denied".data } :
                ParquetOpenEnv).fileWriterErr with
             | some _ => []
             | none => [OpenEvent.newCSVWriter]))) ∧
    (({ assumeRoleArn := some "role".data } : Params).assumeRoleArn =
        none →
      (S3ParquetSink.Open {} "s3://b/k".data
          { assumeRoleArn := some "role".data } []
          { providerRetrieveErr := some "denied".data }).2.2 =
        [.loadDefaultConfig, .buildS3Client .ambient,
          .openOutputFile] ++
          (match ({ providerRetrieveErr := some "denied".data } :
              ParquetOpenEnv).fileWriterErr with
           | some _ => []
           | none => [OpenEvent.newCSVWriter]) ∧
      OpenEvent.assumeRoleRetrieve ∉
        (S3ParquetSink.Open {} "s3://b/k".data
          { assumeRoleArn := some "role".data } []
          { providerRetrieveErr := some "denied".data }).2.2) :=
  c10_parquet_credentials {} "s3://b/k".data
    { assumeRoleArn := some "role".data } []
    { providerRetrieveErr := some "denied".data }
    ("b".data, "k".data) rfl rfl
